import Mathlib

/-!
Verification of the session-oriented recovery-control service of the
testdisk-grpc-server repository.  The repository ships only example client
code (`examples/client_example.py`, `examples/shutdown_client.py`); the
server itself (Session Registry, Recovery Context lifecycle, Shutdown
Coordinator, Service Façade) is described by the design spec.  All server
definitions below are therefore modelled from the spec, faithful to its
component contracts (§3 data model, §4 component design, §7 error kinds).
-/

namespace PhotoRecServer

/-- Modelled from the spec: the set of error kinds of §7 (the server source
is not in the repository; only its example clients are). -/
inductive ErrKind where
  | InvalidArgument
  | NotFound
  | ResourceBusy
  | ServiceUnavailable
  | Internal
  | Timeout
deriving DecidableEq, Repr, BEq

/-- Modelled from the spec: `state` of a Recovery Context is one of
Active, ShuttingDown, Closed (§3). -/
inductive CtxState where
  | Active
  | ShuttingDown
  | Closed
deriving DecidableEq, Repr, BEq

/-- Modelled from the spec: a Recovery Context (§3): the bound device,
recovery output directory, logging configuration and lifecycle state.
The `context_id` is the key under which the Session Registry stores the
context, so it is kept outside this structure. -/
structure RecoveryContext where
  device : String
  recovery_dir : String
  log_mode : Nat
  log_file : String
  state : CtxState
deriving DecidableEq, Repr, BEq

/-- Modelled from the spec: a Disk Descriptor (§3, §6): immutable snapshot
of a storage device's identifying metadata. -/
structure Disk where
  device : String
  description : String
  size : Nat
  model : String
  serial_no : String
deriving DecidableEq, Repr, BEq

/-- Modelled from the spec: recoverability/readability status of one
partition, a small enumerated set (§3). -/
inductive PartStatus where
  | unknown
  | ok
  | unreadable
deriving DecidableEq, Repr, BEq

/-- Modelled from the spec: one raw partition-table entry as the Partition
Scanner reads it off the disk, before the 0-based `order` index is
attached (§3, §4.3). -/
structure RawPart where
  name : String
  filesystem : String
  offset : Nat
  size : Nat
  status : PartStatus
deriving DecidableEq, Repr, BEq

/-- Modelled from the spec: a Partition Descriptor (§3, §6): a raw table
entry together with its 0-based position in the partition table. -/
structure Partition where
  order : Nat
  name : String
  filesystem : String
  offset : Nat
  size : Nat
  status : PartStatus
deriving DecidableEq, Repr, BEq

/-- Modelled from the spec: the external collaborators the core calls into
(§1, §6): device-path validation, directory usability, the device-access
primitive, the logging sink, the Device Enumerator's probe result and the
Partition Scanner's view of each device's on-disk partition table.  These
are black boxes to the core, so they are parameters of the model. -/
structure Env where
  validDevice : String → Bool
  usableDir : String → Bool
  openDevice : String → Bool
  logOk : Nat → String → Bool
  disks : List Disk
  table : String → List RawPart

/-- Modelled from the spec: the process-wide service state (§5, §9):
the Session Registry (map from context identifier to Recovery Context,
kept as an association list keyed by the issued `context_id`), the fresh-id
counter backing `never reused while the process runs` (§3), whether the
service is still accepting new Initialize calls (§4.5), and the set of
device handles currently held (§4.4 resource accounting). -/
structure ServerState where
  registry : List (Nat × RecoveryContext)
  nextId : Nat
  accepting : Bool
  openHandles : List String
deriving DecidableEq, Repr

/-- Modelled from the spec: the service starts with an empty registry,
accepting requests, holding no device handles (§5: no global state persists
beyond the registry's lifetime). -/
def initState : ServerState :=
  { registry := [], nextId := 0, accepting := true, openHandles := [] }

/-- Modelled from the spec: the uniform response shape of the Service
Façade (§6): every response carries a success flag and, on failure, an
error kind and message. -/
inductive Resp where
  | initOk (context_id : Nat)
  | disksOk (disks : List Disk)
  | partsOk (partitions : List Partition)
  | cleanupOk
  | shutdownOk (message : String)
  | err (kind : ErrKind) (error_message : String)
deriving DecidableEq, Repr, BEq

/-- The `success` flag of a response (§6). -/
def Resp.success : Resp → Bool
  | .err _ _ => false
  | _ => true

/-- Modelled from the spec: the wire form of a `context_id` is the string
field of the protobuf response; the model renders the registry key in
decimal. -/
def contextIdWire (n : Nat) : String := toString n

/-- Modelled from the spec: a device is busy when some Recovery Context in
the registry is Active and bound to it (device-exclusivity invariant,
§3). -/
def deviceBusy (reg : List (Nat × RecoveryContext)) (d : String) : Bool :=
  reg.any fun p => p.2.device == d && p.2.state == CtxState.Active

/-- Modelled from the spec: releasing the device-access resource acquired
for a device (§4.4 failure path and Cleanup). -/
def releaseDevice (st : ServerState) (d : String) : ServerState :=
  { st with openHandles := st.openHandles.erase d }

/-- Modelled from the spec: Initialize (§4.1 Create, §4.4): when the
service is shutting down, reject with ServiceUnavailable (§4.5); validate
that the device is not already exclusively bound (ResourceBusy, §3/§7) and
is a legal path, acquire device access, validate the recovery directory,
wire up logging, and only then register the context under a fresh id.  Any
failure after device access was acquired releases it again and leaves no
registry entry (§4.4). -/
def create (env : Env) (st : ServerState) (device recovery_dir : String)
    (log_mode : Nat) (log_file : String) : Resp × ServerState :=
  if st.accepting = false then
    (.err .ServiceUnavailable "service is shutting down", st)
  else if deviceBusy st.registry device then
    (.err .ResourceBusy "device already exclusively bound", st)
  else if env.validDevice device = false then
    (.err .InvalidArgument "malformed device path", st)
  else if env.openDevice device = false then
    (.err .Internal "failed to open device", st)
  else
    let st1 := { st with openHandles := device :: st.openHandles }
    if env.usableDir recovery_dir = false then
      (.err .InvalidArgument "recovery directory not usable", releaseDevice st1 device)
    else if env.logOk log_mode log_file = false then
      (.err .Internal "failed to set up logging", releaseDevice st1 device)
    else
      let cid := st.nextId
      let ctx : RecoveryContext :=
        { device := device, recovery_dir := recovery_dir
          log_mode := log_mode, log_file := log_file, state := .Active }
      (.initOk cid,
        { st1 with registry := (cid, ctx) :: st.registry, nextId := cid + 1 })

/-- Modelled from the spec: GetDisks (§4.2, §6, §7): the request carries a
`context_id`, and an unknown context id is reported as NotFound (§7 error
table, §8 testable properties); once the context resolves, the disk probe
itself is a stateless enumeration of host storage. -/
def getDisks (env : Env) (st : ServerState) (cid : Nat) : Resp × ServerState :=
  match List.lookup cid st.registry with
  | none => (.err .NotFound "context not found", st)
  | some _ => (.disksOk env.disks, st)

/-- Modelled from the spec: the Partition Scanner (§4.3, §3): enumerate the
on-disk partition table of a device, attaching each entry's 0-based
position as its `order`. -/
def scanPartitions (tbl : List RawPart) : List Partition :=
  tbl.enum.map fun p =>
    { order := p.1, name := p.2.name, filesystem := p.2.filesystem
      offset := p.2.offset, size := p.2.size, status := p.2.status }

/-- Modelled from the spec: GetPartitions (§4.3, §7): requires a valid
context (NotFound for unknown ids); the `device` argument is an explicit,
possibly-independent argument (the policy reading §4.3 itself suggests);
returns partitions in on-disk table order. -/
def getPartitions (env : Env) (st : ServerState) (cid : Nat) (device : String) :
    Resp × ServerState :=
  match List.lookup cid st.registry with
  | none => (.err .NotFound "context not found", st)
  | some _ => (.partsOk (scanPartitions (env.table device)), st)

/-- Modelled from the spec: Cleanup (§4.1 Remove, §4.4): an unknown or
already-cleaned context id is a reported NotFound; otherwise release the
context's device access and delete the registry entry. -/
def cleanup (st : ServerState) (cid : Nat) : Resp × ServerState :=
  match List.lookup cid st.registry with
  | none => (.err .NotFound "context not found", st)
  | some ctx =>
      (.cleanupOk,
        releaseDevice { st with registry := st.registry.filter fun p => p.1 != cid }
          ctx.device)

/-- Modelled from the spec: the Shutdown Coordinator (§4.5).  Forced:
remove every active context, release all handles, stop accepting new
requests and report success.  Non-forced: mark the service ShuttingDown
(no new Initialize is accepted afterwards); with no active contexts the
drain completes immediately with success (§8), otherwise the bounded drain
wait is modelled as its timed-out outcome, reported as a Timeout failure
(§7).  The `reason` string is surfaced only in the human-readable
message. -/
def shutdown (st : ServerState) (force : Bool) (reason : String) :
    Resp × ServerState :=
  let note := if reason == "" then "" else ": " ++ reason
  if force then
    (.shutdownOk ("forced shutdown complete" ++ note),
      { st with registry := [], accepting := false, openHandles := [] })
  else if st.registry.isEmpty then
    (.shutdownOk ("graceful shutdown complete" ++ note),
      { st with accepting := false })
  else
    (.err .Timeout ("graceful shutdown timed out" ++ note),
      { st with accepting := false })

/-- Modelled from the spec: one inbound request on the RPC surface (§6). -/
inductive Op where
  | init (device recovery_dir : String) (log_mode : Nat) (log_file : String)
  | disks (cid : Nat)
  | parts (cid : Nat) (device : String)
  | clean (cid : Nat)
  | shut (force : Bool) (reason : String)
deriving DecidableEq, Repr

/-- Modelled from the spec: the Service Façade dispatching one request
(§2 data flow). -/
def step (env : Env) (st : ServerState) : Op → Resp × ServerState
  | .init d rd lm lf => create env st d rd lm lf
  | .disks cid => getDisks env st cid
  | .parts cid d => getPartitions env st cid d
  | .clean cid => cleanup st cid
  | .shut f r => shutdown st f r

/-- The service state after a sequence of requests. -/
def execOps (env : Env) (st : ServerState) : List Op → ServerState
  | [] => st
  | op :: ops => execOps env (step env st op).2 ops

/-- The context ids issued by the successful Initialize calls of a request
sequence, in order. -/
def issuedIds (env : Env) (st : ServerState) : List Op → List Nat
  | [] => []
  | op :: ops =>
      match (step env st op).1 with
      | .initOk cid => cid :: issuedIds env (step env st op).2 ops
      | _ => issuedIds env (step env st op).2 ops

/-- Every registry key is below the fresh-id counter; this is the
freshness invariant backing id uniqueness (§3). -/
def KeysBelow (st : ServerState) : Prop :=
  ∀ p ∈ st.registry, p.1 < st.nextId

/-- A concrete environment used to instantiate theorems with hypotheses. -/
def env0 : Env :=
  { validDevice := fun d => d == "/dev/sda" || d == "/dev/sdb"
    usableDir := fun r => r != ""
    openDevice := fun _ => true
    logOk := fun _ _ => true
    disks := [{ device := "/dev/sda", description := "test disk"
                size := 1000000, model := "TestModel", serial_no := "SN1" }]
    table := fun d =>
      if d == "/dev/sda" then
        [{ name := "p1", filesystem := "ext4", offset := 0, size := 500000
           status := .ok },
         { name := "p2", filesystem := "ntfs", offset := 500000, size := 500000
           status := .unknown }]
      else [] }


/-! ### Registry lookup helper lemmas -/

theorem lookup_filter_self (reg : List (Nat × RecoveryContext)) (cid : Nat) :
    List.lookup cid (reg.filter fun p => p.1 != cid) = none := by
  induction reg with
  | nil => simp
  | cons hd tl ih =>
      by_cases h : hd.1 = cid
      · simpa [List.filter_cons, h] using ih
      · have hne : (hd.1 != cid) = true := by simpa using h
        have hbeq : (cid == hd.1) = false := by
          simpa using fun hc => h hc.symm
        simp only [List.filter_cons, hne, if_true]
        cases hd with
        | mk k v =>
            rw [List.lookup_cons]
            simp only at hbeq
            simp [hbeq, ih]

theorem lookup_filter_ne (reg : List (Nat × RecoveryContext)) (cid c : Nat)
    (h : cid ≠ c) :
    List.lookup cid (reg.filter fun p => p.1 != c) = List.lookup cid reg := by
  induction reg with
  | nil => simp
  | cons hd tl ih =>
      cases hd with
      | mk k v =>
          by_cases hk : k = c
          · have hckne : cid ≠ k := fun hck => h (hck.trans hk)
            have hne : (k != c) = false := by simpa using hk
            have hbeq : (cid == k) = false := by simpa using hckne
            simp only [List.filter_cons, hne]
            rw [List.lookup_cons]
            simp [hbeq, ih]
          · have hne : (k != c) = true := by simpa using hk
            simp only [List.filter_cons, hne, if_true]
            rw [List.lookup_cons, List.lookup_cons]
            cases hc : (cid == k) with
            | true => simp
            | false => simp [hc, ih]

theorem lookup_mem {reg : List (Nat × RecoveryContext)} {cid : Nat}
    {ctx : RecoveryContext} (h : List.lookup cid reg = some ctx) :
    (cid, ctx) ∈ reg := by
  induction reg with
  | nil => simp at h
  | cons hd tl ih =>
      cases hd with
      | mk k v =>
          rw [List.lookup_cons] at h
          cases hc : (cid == k) with
          | true =>
              have hk : cid = k := by simpa using hc
              simp only [hc] at h
              cases h
              subst hk
              exact List.mem_cons_self _ _
          | false =>
              simp only [hc] at h
              exact List.mem_cons_of_mem _ (ih h)

theorem release_acquire (st : ServerState) (d : String) :
    releaseDevice { st with openHandles := d :: st.openHandles } d = st := by
  cases st
  simp [releaseDevice]

/-! ### Lemmas about the Initialize path -/

theorem create_fail_state (env : Env) (st : ServerState)
    (d rd : String) (lm : Nat) (lf : String)
    (h : (create env st d rd lm lf).1.success = false) :
    (create env st d rd lm lf).2 = st := by
  unfold create at h ⊢
  split_ifs at h ⊢ with h1 h2 h3 h4 h5 h6
  · rfl
  · rfl
  · rfl
  · rfl
  · exact release_acquire st d
  · exact release_acquire st d
  · simp [Resp.success] at h

theorem create_initOk (env : Env) (st : ServerState) (d rd : String) (lm : Nat)
    (lf : String) (cid : Nat)
    (h : (create env st d rd lm lf).1 = Resp.initOk cid) :
    cid = st.nextId ∧
    (create env st d rd lm lf).2 =
      { registry := (st.nextId,
          { device := d, recovery_dir := rd, log_mode := lm, log_file := lf
            state := CtxState.Active }) :: st.registry
        nextId := st.nextId + 1
        accepting := st.accepting
        openHandles := d :: st.openHandles } := by
  unfold create at h ⊢
  split_ifs at h ⊢ with h1 h2 h3 h4 h5 h6
  all_goals simp_all

theorem create_nextId_mono (env : Env) (st : ServerState)
    (d rd : String) (lm : Nat) (lf : String) :
    st.nextId ≤ ((create env st d rd lm lf).2).nextId := by
  unfold create
  split_ifs with h1 h2 h3 h4 h5 h6
  all_goals simp [releaseDevice]

theorem create_keysBelow (env : Env) (st : ServerState)
    (d rd : String) (lm : Nat) (lf : String) (hk : KeysBelow st) :
    KeysBelow ((create env st d rd lm lf).2) := by
  unfold create
  split_ifs with h1 h2 h3 h4 h5 h6
  all_goals try exact hk
  intro p hp
  simp only [List.mem_cons] at hp
  rcases hp with hp | hp
  · subst hp
    exact Nat.lt_succ_self _
  · exact Nat.lt_succ_of_lt (hk p hp)

/-! ### Lemmas about single request steps -/

theorem getDisks_state (env : Env) (st : ServerState) (cid : Nat) :
    (getDisks env st cid).2 = st := by
  unfold getDisks
  cases h : List.lookup cid st.registry <;> rfl

theorem getPartitions_state (env : Env) (st : ServerState) (cid : Nat)
    (d : String) : (getPartitions env st cid d).2 = st := by
  unfold getPartitions
  cases h : List.lookup cid st.registry <;> rfl

theorem shutdown_state (st : ServerState) (f : Bool) (r : String) :
    (shutdown st f r).2 =
      if f then { st with registry := [], accepting := false, openHandles := [] }
      else { st with accepting := false } := by
  unfold shutdown
  cases f with
  | true => simp
  | false => by_cases h : st.registry.isEmpty <;> simp [h]

theorem getDisks_not_initOk (env : Env) (st : ServerState) (cid n : Nat) :
    (getDisks env st cid).1 ≠ Resp.initOk n := by
  unfold getDisks
  cases h : List.lookup cid st.registry <;> simp

theorem getPartitions_not_initOk (env : Env) (st : ServerState) (cid n : Nat)
    (d : String) : (getPartitions env st cid d).1 ≠ Resp.initOk n := by
  unfold getPartitions
  cases h : List.lookup cid st.registry <;> simp

theorem cleanup_not_initOk (st : ServerState) (cid n : Nat) :
    (cleanup st cid).1 ≠ Resp.initOk n := by
  unfold cleanup
  cases h : List.lookup cid st.registry <;> simp

theorem shutdown_not_initOk (st : ServerState) (f : Bool) (r : String)
    (n : Nat) : (shutdown st f r).1 ≠ Resp.initOk n := by
  unfold shutdown
  cases f with
  | true => simp
  | false => by_cases h : st.registry.isEmpty <;> simp [h]

theorem cleanup_nextId (st : ServerState) (cid : Nat) :
    ((cleanup st cid).2).nextId = st.nextId := by
  unfold cleanup
  cases h : List.lookup cid st.registry <;> simp [releaseDevice]

theorem step_nextId_mono (env : Env) (st : ServerState) (op : Op) :
    st.nextId ≤ ((step env st op).2).nextId := by
  cases op with
  | init d rd lm lf => exact create_nextId_mono env st d rd lm lf
  | disks cid => rw [show (step env st (Op.disks cid)).2 = _ from getDisks_state env st cid]
  | parts cid d => rw [show (step env st (Op.parts cid d)).2 = _ from getPartitions_state env st cid d]
  | clean cid =>
      have h := cleanup_nextId st cid
      simp only [step]
      omega
  | shut f r =>
      simp only [step]
      rw [shutdown_state]
      cases f <;> simp

theorem step_initOk (env : Env) (st : ServerState) (op : Op) (cid : Nat)
    (h : (step env st op).1 = Resp.initOk cid) :
    cid = st.nextId ∧ ((step env st op).2).nextId = st.nextId + 1 := by
  cases op with
  | init d rd lm lf =>
      obtain ⟨h1, h2⟩ := create_initOk env st d rd lm lf cid h
      refine ⟨h1, ?_⟩
      show ((create env st d rd lm lf).2).nextId = st.nextId + 1
      rw [h2]
  | disks c => exact absurd h (getDisks_not_initOk env st c cid)
  | parts c d => exact absurd h (getPartitions_not_initOk env st c cid d)
  | clean c => exact absurd h (cleanup_not_initOk st c cid)
  | shut f r => exact absurd h (shutdown_not_initOk st f r cid)

theorem step_keysBelow (env : Env) (st : ServerState) (op : Op)
    (hk : KeysBelow st) : KeysBelow ((step env st op).2) := by
  cases op with
  | init d rd lm lf => exact create_keysBelow env st d rd lm lf hk
  | disks cid => rw [show (step env st (Op.disks cid)).2 = _ from getDisks_state env st cid]; exact hk
  | parts cid d => rw [show (step env st (Op.parts cid d)).2 = _ from getPartitions_state env st cid d]; exact hk
  | clean cid =>
      show KeysBelow ((cleanup st cid).2)
      unfold cleanup
      cases h : List.lookup cid st.registry with
      | none => exact hk
      | some ctx =>
          intro p hp
          simp only [releaseDevice, List.mem_filter] at hp
          exact hk p hp.1
  | shut f r =>
      show KeysBelow ((shutdown st f r).2)
      rw [shutdown_state]
      cases f with
      | true => intro p hp; simp at hp
      | false => intro p hp; exact hk p hp

theorem step_lookup_pres (env : Env) (st : ServerState) (op : Op) (cid : Nat)
    (ctx ctx' : RecoveryContext) (hk : KeysBelow st)
    (h1 : List.lookup cid st.registry = some ctx)
    (h2 : List.lookup cid ((step env st op).2).registry = some ctx') :
    ctx' = ctx := by
  cases op with
  | init d rd lm lf =>
      replace h2 : List.lookup cid ((create env st d rd lm lf).2).registry = some ctx' := h2
      by_cases hsucc : (create env st d rd lm lf).1.success = true
      · obtain ⟨n, hn⟩ : ∃ n, (create env st d rd lm lf).1 = Resp.initOk n := by
          unfold create at hsucc ⊢
          split_ifs at hsucc ⊢ <;> simp_all [Resp.success]
        obtain ⟨hn1, hst⟩ := create_initOk env st d rd lm lf n hn
        rw [hst] at h2
        have hlt : cid < st.nextId := hk (cid, ctx) (lookup_mem h1)
        have hne : (cid == st.nextId) = false := by
          simp only [beq_eq_false_iff_ne, ne_eq]
          exact Nat.ne_of_lt hlt
        rw [List.lookup_cons] at h2
        simp only [hne] at h2
        rw [h1] at h2
        exact (Option.some_inj.mp h2).symm
      · have hfail : (create env st d rd lm lf).1.success = false := by
          simpa using hsucc
        rw [create_fail_state env st d rd lm lf hfail, h1] at h2
        exact (Option.some_inj.mp h2).symm
  | disks c =>
      rw [show (step env st (Op.disks c)).2 = _ from getDisks_state env st c, h1] at h2
      exact (Option.some_inj.mp h2).symm
  | parts c d =>
      rw [show (step env st (Op.parts c d)).2 = _ from getPartitions_state env st c d, h1] at h2
      exact (Option.some_inj.mp h2).symm
  | clean c =>
      replace h2 : List.lookup cid ((cleanup st c).2).registry = some ctx' := h2
      unfold cleanup at h2
      cases hc : List.lookup c st.registry with
      | none =>
          simp only [hc] at h2
          rw [h1] at h2
          exact (Option.some_inj.mp h2).symm
      | some cctx =>
          simp only [hc, releaseDevice] at h2
          by_cases hcc : cid = c
          · subst hcc
            rw [lookup_filter_self] at h2
            exact absurd h2 (by simp)
          · rw [lookup_filter_ne st.registry cid c hcc, h1] at h2
            exact (Option.some_inj.mp h2).symm
  | shut f r =>
      replace h2 : List.lookup cid ((shutdown st f r).2).registry = some ctx' := h2
      rw [shutdown_state] at h2
      cases f with
      | true => simp at h2
      | false =>
          simp only [if_neg (by simp : ¬(false = true))] at h2
          rw [show ({ st with accepting := false } : ServerState).registry = st.registry from rfl, h1] at h2
          exact (Option.some_inj.mp h2).symm

/-! ### Lemmas about request traces -/

theorem execOps_keysBelow (env : Env) :
    ∀ (ops : List Op) (st : ServerState), KeysBelow st →
      KeysBelow (execOps env st ops) := by
  intro ops
  induction ops with
  | nil => intro st hk; exact hk
  | cons op ops ih =>
      intro st hk
      exact ih _ (step_keysBelow env st op hk)

theorem step_lookup_none (env : Env) (st : ServerState) (op : Op) (cid : Nat)
    (hlt : cid < st.nextId)
    (h : List.lookup cid st.registry = none) :
    List.lookup cid ((step env st op).2).registry = none := by
  cases op with
  | init d rd lm lf =>
      show List.lookup cid ((create env st d rd lm lf).2).registry = none
      by_cases hsucc : (create env st d rd lm lf).1.success = true
      · obtain ⟨n, hn⟩ : ∃ n, (create env st d rd lm lf).1 = Resp.initOk n := by
          unfold create at hsucc ⊢
          split_ifs at hsucc ⊢ <;> simp_all [Resp.success]
        obtain ⟨hn1, hst⟩ := create_initOk env st d rd lm lf n hn
        rw [hst]
        have hne : (cid == st.nextId) = false := by
          simp only [beq_eq_false_iff_ne, ne_eq]
          exact Nat.ne_of_lt hlt
        rw [List.lookup_cons]
        simp only [hne]
        exact h
      · have hfail : (create env st d rd lm lf).1.success = false := by
          simpa using hsucc
        rw [create_fail_state env st d rd lm lf hfail]
        exact h
  | disks c => rw [show (step env st (Op.disks c)).2 = _ from getDisks_state env st c]; exact h
  | parts c d => rw [show (step env st (Op.parts c d)).2 = _ from getPartitions_state env st c d]; exact h
  | clean c =>
      show List.lookup cid ((cleanup st c).2).registry = none
      unfold cleanup
      cases hc : List.lookup c st.registry with
      | none => exact h
      | some cctx =>
          simp only [releaseDevice]
          by_cases hcc : cid = c
          · subst hcc
            exact lookup_filter_self st.registry cid
          · rw [lookup_filter_ne st.registry cid c hcc]
            exact h
  | shut f r =>
      show List.lookup cid ((shutdown st f r).2).registry = none
      rw [shutdown_state]
      cases f with
      | true => simp
      | false =>
          simp only [if_neg (by simp : ¬(false = true))]
          exact h

theorem execOps_lookup_none (env : Env) :
    ∀ (ops : List Op) (st : ServerState) (cid : Nat), cid < st.nextId →
      List.lookup cid st.registry = none →
      List.lookup cid (execOps env st ops).registry = none := by
  intro ops
  induction ops with
  | nil => intro st cid _ h; exact h
  | cons op ops ih =>
      intro st cid hlt h
      exact ih _ cid (Nat.lt_of_lt_of_le hlt (step_nextId_mono env st op))
        (step_lookup_none env st op cid hlt h)

theorem execOps_lookup_pres (env : Env) :
    ∀ (ops : List Op) (st : ServerState) (cid : Nat)
      (ctx ctx' : RecoveryContext), KeysBelow st →
      List.lookup cid st.registry = some ctx →
      List.lookup cid (execOps env st ops).registry = some ctx' →
      ctx' = ctx := by
  intro ops
  induction ops with
  | nil =>
      intro st cid ctx ctx' _ h1 h2
      rw [show execOps env st [] = st from rfl, h1] at h2
      exact (Option.some_inj.mp h2).symm
  | cons op ops ih =>
      intro st cid ctx ctx' hk h1 h2
      have hlt : cid < st.nextId := hk (cid, ctx) (lookup_mem h1)
      cases hmid : List.lookup cid ((step env st op).2).registry with
      | none =>
          have hnone := execOps_lookup_none env ops (step env st op).2 cid
            (Nat.lt_of_lt_of_le hlt (step_nextId_mono env st op)) hmid
          rw [show execOps env st (op :: ops) = execOps env (step env st op).2 ops from rfl] at h2
          rw [hnone] at h2
          exact absurd h2 (by simp)
      | some cmid =>
          have hcm : cmid = ctx := step_lookup_pres env st op cid ctx cmid hk h1 hmid
          have := ih (step env st op).2 cid cmid ctx'
            (step_keysBelow env st op hk) hmid h2
          rw [this, hcm]

/-- Every context id issued along a trace is at least the fresh-id counter
of the state the trace starts from. -/
theorem issuedIds_lb (env : Env) :
    ∀ (ops : List Op) (st : ServerState) (n : Nat),
      n ∈ issuedIds env st ops → st.nextId ≤ n := by
  intro ops
  induction ops with
  | nil => intro st n h; simp [issuedIds] at h
  | cons op ops ih =>
      intro st n h
      unfold issuedIds at h
      cases hr : (step env st op).1 with
      | initOk cid =>
          rw [hr] at h
          simp only [List.mem_cons] at h
          obtain ⟨hc, hnext⟩ := step_initOk env st op cid hr
          rcases h with h | h
          · subst h; omega
          · have := ih (step env st op).2 n h
            omega
      | disksOk l =>
          rw [hr] at h
          exact Nat.le_trans (step_nextId_mono env st op) (ih _ n h)
      | partsOk l =>
          rw [hr] at h
          exact Nat.le_trans (step_nextId_mono env st op) (ih _ n h)
      | cleanupOk =>
          rw [hr] at h
          exact Nat.le_trans (step_nextId_mono env st op) (ih _ n h)
      | shutdownOk m =>
          rw [hr] at h
          exact Nat.le_trans (step_nextId_mono env st op) (ih _ n h)
      | err k m =>
          rw [hr] at h
          exact Nat.le_trans (step_nextId_mono env st op) (ih _ n h)

/-- Along any trace, the issued context ids are pairwise distinct. -/
theorem issuedIds_nodup (env : Env) :
    ∀ (ops : List Op) (st : ServerState), (issuedIds env st ops).Nodup := by
  intro ops
  induction ops with
  | nil => intro st; simp [issuedIds]
  | cons op ops ih =>
      intro st
      unfold issuedIds
      cases hr : (step env st op).1 with
      | initOk cid =>
          obtain ⟨hc, hnext⟩ := step_initOk env st op cid hr
          refine List.Nodup.cons ?_ (ih (step env st op).2)
          intro hmem
          have := issuedIds_lb env ops (step env st op).2 cid hmem
          omega
      | disksOk l => exact ih _
      | partsOk l => exact ih _
      | cleanupOk => exact ih _
      | shutdownOk m => exact ih _
      | err k m => exact ih _

/-! ### Lemmas about the Partition Scanner -/

theorem scanPartitions_length (tbl : List RawPart) :
    (scanPartitions tbl).length = tbl.length := by
  simp [scanPartitions]

theorem scanPartitions_map_order (tbl : List RawPart) :
    (scanPartitions tbl).map Partition.order = List.range tbl.length := by
  unfold scanPartitions
  rw [List.map_map]
  exact List.enum_map_fst tbl

theorem scanPartitions_getElem (tbl : List RawPart) (i : Nat) (raw : RawPart)
    (h : tbl[i]? = some raw) :
    (scanPartitions tbl)[i]? = some
      { order := i, name := raw.name, filesystem := raw.filesystem
        offset := raw.offset, size := raw.size, status := raw.status } := by
  unfold scanPartitions
  rw [List.getElem?_map, List.getElem?_enum, h]
  rfl

/-! ### Concrete states used to instantiate the theorems -/

/-- An Active context bound to `/dev/sda`, as the first Initialize of the
example client would create it. -/
def ctxA : RecoveryContext :=
  { device := "/dev/sda", recovery_dir := "/tmp/r1", log_mode := 1
    log_file := "", state := .Active }

/-- An Active context bound to `/dev/sdb`. -/
def ctxB : RecoveryContext :=
  { device := "/dev/sdb", recovery_dir := "/tmp/r2", log_mode := 1
    log_file := "", state := .Active }

/-- A service state with one Active context bound to `/dev/sda`, still
accepting requests. -/
def stBusy : ServerState :=
  { registry := [(0, ctxA)], nextId := 1, accepting := true
    openHandles := ["/dev/sda"] }

/-- The same one-context state after a graceful shutdown was initiated:
the context is still Active but the service no longer accepts new
Initialize calls. -/
def stBusyDown : ServerState :=
  { registry := [(0, ctxA)], nextId := 1, accepting := false
    openHandles := ["/dev/sda"] }

/-- A service state with two Active contexts on distinct devices. -/
def stTwo : ServerState :=
  { registry := [(1, ctxB), (0, ctxA)], nextId := 2, accepting := true
    openHandles := ["/dev/sdb", "/dev/sda"] }

/-- After a successful Cleanup the cleaned id no longer resolves. -/
theorem cleanup_success_lookup_none (st : ServerState) (cid : Nat)
    (h : ((cleanup st cid).1).success = true) :
    List.lookup cid ((cleanup st cid).2).registry = none := by
  unfold cleanup at h ⊢
  cases hc : List.lookup cid st.registry with
  | none => rw [hc] at h; simp [Resp.success] at h
  | some ctx =>
      simp only [hc, releaseDevice]
      exact lookup_filter_self st.registry cid

/-! ### The claims -/

/-- C1 (counterexample): the claim quantifies over every state with an
Active context bound to the device, but in a state where a graceful
shutdown has been initiated (the service no longer accepting requests)
while the context is still Active, a second Initialize on the busy device
is rejected with ServiceUnavailable, not ResourceBusy. -/
theorem c1_counterexample :
    deviceBusy stBusyDown.registry "/dev/sda" = true ∧
    ctxA.state = CtxState.Active ∧
    (create env0 stBusyDown "/dev/sda" "/tmp/r2" 1 "").1 =
      Resp.err ErrKind.ServiceUnavailable "service is shutting down" ∧
    ErrKind.ServiceUnavailable ≠ ErrKind.ResourceBusy := by
  refine ⟨by decide, rfl, ?_, by decide⟩
  decide

/-- C1 (amended): in every state in which the service is still accepting
requests and some Recovery Context is Active and bound to device `d`, a
second Initialize with device `d` fails with ResourceBusy and leaves the
whole service state (hence the original context and the behaviour of all
operations on its context id) unchanged. -/
theorem c1_second_create_busy (env : Env) (st : ServerState)
    (d rd : String) (lm : Nat) (lf : String)
    (hacc : st.accepting = true)
    (hbusy : deviceBusy st.registry d = true) :
    (create env st d rd lm lf).1 =
      Resp.err ErrKind.ResourceBusy "device already exclusively bound" ∧
    (create env st d rd lm lf).2 = st := by
  unfold create
  simp [hacc, hbusy]

/-- C1 (witness): in the concrete one-context state, a second Initialize
on `/dev/sda` fails with ResourceBusy and the state is unchanged. -/
theorem c1_witness :
    stBusy.accepting = true ∧ deviceBusy stBusy.registry "/dev/sda" = true ∧
    (create env0 stBusy "/dev/sda" "/tmp/r2" 1 "").1 =
      Resp.err ErrKind.ResourceBusy "device already exclusively bound" ∧
    (create env0 stBusy "/dev/sda" "/tmp/r2" 1 "").2 = stBusy :=
  ⟨rfl, by decide,
    (c1_second_create_busy env0 stBusy "/dev/sda" "/tmp/r2" 1 "" rfl (by decide)).1,
    (c1_second_create_busy env0 stBusy "/dev/sda" "/tmp/r2" 1 "" rfl (by decide)).2⟩

/-- C2: a context id that does not resolve in the Session Registry (never
issued, or already removed) makes GetDisks, GetPartitions and Cleanup all
fail with NotFound and leave the state untouched; moreover after any
successful Cleanup a second Cleanup of the same id fails with NotFound and
leaves the registry state unchanged, so unrelated contexts are
unaffected. -/
theorem c2_unknown_context_not_found (env : Env) (st : ServerState)
    (cid : Nat) (h : List.lookup cid st.registry = none) :
    getDisks env st cid = (Resp.err ErrKind.NotFound "context not found", st) ∧
    (∀ d, getPartitions env st cid d =
      (Resp.err ErrKind.NotFound "context not found", st)) ∧
    cleanup st cid = (Resp.err ErrKind.NotFound "context not found", st) ∧
    (∀ st2 cid2, ((cleanup st2 cid2).1).success = true →
      cleanup ((cleanup st2 cid2).2) cid2 =
        (Resp.err ErrKind.NotFound "context not found", (cleanup st2 cid2).2)) := by
  refine ⟨?_, ?_, ?_, ?_⟩
  · simp [getDisks, h]
  · intro d; simp [getPartitions, h]
  · simp [cleanup, h]
  · intro st2 cid2 hs
    have hn := cleanup_success_lookup_none st2 cid2 hs
    generalize hgen : (cleanup st2 cid2).2 = st3 at hn ⊢
    simp [cleanup, hn]

/-- C2 (witness): in the concrete one-context state, the never-issued id 7
is NotFound for all three operations, and after cleaning context 0 a second
Cleanup of 0 is NotFound with the state unchanged. -/
theorem c2_witness :
    List.lookup 7 stBusy.registry = none ∧
    (getDisks env0 stBusy 7 = (Resp.err ErrKind.NotFound "context not found", stBusy) ∧
     (∀ d, getPartitions env0 stBusy 7 d =
       (Resp.err ErrKind.NotFound "context not found", stBusy)) ∧
     cleanup stBusy 7 = (Resp.err ErrKind.NotFound "context not found", stBusy) ∧
     (∀ st2 cid2, ((cleanup st2 cid2).1).success = true →
       cleanup ((cleanup st2 cid2).2) cid2 =
         (Resp.err ErrKind.NotFound "context not found", (cleanup st2 cid2).2))) :=
  ⟨by decide, c2_unknown_context_not_found env0 stBusy 7 (by decide)⟩

/-- C3: along any request trace of one process run (starting from the
fresh-service state), the context ids returned by successful Initialize
calls are pairwise distinct; ids are never reused even after their context
has been removed. -/
theorem c3_issued_ids_distinct (env : Env) (ops : List Op) :
    (issuedIds env initState ops).Nodup :=
  issuedIds_nodup env ops initState

/-- C4: whenever Initialize fails at any step of its sequence (service
shutting down, busy or illegal device, device-open failure, unusable
recovery directory, logging failure), the service state after the call
equals the pre-call state: no partial registry entry remains and every
partially acquired resource (the device handle) has been released. -/
theorem c4_create_failure_no_leak (env : Env) (st : ServerState)
    (d rd : String) (lm : Nat) (lf : String)
    (h : ((create env st d rd lm lf).1).success = false) :
    (create env st d rd lm lf).2 = st :=
  create_fail_state env st d rd lm lf h

/-- C4 (witness): a concrete Initialize that fails while preparing the
recovery directory (after the device handle was acquired) leaves the
fresh-service state exactly as it was. -/
theorem c4_witness :
    ((create env0 initState "/dev/sda" "" 1 "").1).success = false ∧
    (create env0 initState "/dev/sda" "" 1 "").2 = initState :=
  ⟨by decide, c4_create_failure_no_leak env0 initState "/dev/sda" "" 1 "" (by decide)⟩

/-- C5: from every state, forced Shutdown reports success, removes every
context from the registry and stops accepting new requests; afterwards
every context id reports NotFound on GetDisks, GetPartitions and Cleanup,
and new Initialize calls are rejected with ServiceUnavailable. -/
theorem c5_forced_shutdown (env : Env) (st : ServerState) (reason : String) :
    ((shutdown st true reason).1).success = true ∧
    ((shutdown st true reason).2).registry = [] ∧
    ((shutdown st true reason).2).accepting = false ∧
    (∀ cid, (getDisks env ((shutdown st true reason).2) cid).1 =
      Resp.err ErrKind.NotFound "context not found") ∧
    (∀ cid d, (getPartitions env ((shutdown st true reason).2) cid d).1 =
      Resp.err ErrKind.NotFound "context not found") ∧
    (∀ cid, (cleanup ((shutdown st true reason).2) cid).1 =
      Resp.err ErrKind.NotFound "context not found") ∧
    (∀ d rd lm lf, (create env ((shutdown st true reason).2) d rd lm lf).1 =
      Resp.err ErrKind.ServiceUnavailable "service is shutting down") := by
  have hst : (shutdown st true reason).2 =
      { st with registry := [], accepting := false, openHandles := [] } := by
    rw [shutdown_state]
    rfl
  refine ⟨?_, by rw [hst], by rw [hst], ?_, ?_, ?_, ?_⟩
  · unfold shutdown
    simp [Resp.success]
  · intro cid
    rw [hst]
    simp [getDisks]
  · intro cid d
    rw [hst]
    simp [getPartitions]
  · intro cid
    rw [hst]
    simp [cleanup]
  · intro d rd lm lf
    rw [hst]
    simp [create]

/-- C6: every successful GetPartitions call returns Partition Descriptors
whose `order` values are exactly 0, 1, ..., n-1 in ascending order (hence
pairwise unique and contiguous starting at 0, with the list ordered by
`order`), and the descriptor at position i reproduces entry i of the
on-disk partition table of the requested device. -/
theorem c6_partitions_order (env : Env) (st : ServerState) (cid : Nat)
    (d : String) (parts : List Partition) (st' : ServerState)
    (h : getPartitions env st cid d = (Resp.partsOk parts, st')) :
    parts.map Partition.order = List.range parts.length ∧
    (parts.map Partition.order).Nodup ∧
    List.Pairwise (· < ·) (parts.map Partition.order) ∧
    parts.length = (env.table d).length ∧
    (∀ i raw, (env.table d)[i]? = some raw →
      parts[i]? =
        some ({ order := i, name := raw.name
                filesystem := raw.filesystem, offset := raw.offset
                size := raw.size, status := raw.status } : Partition)) := by
  have hparts : parts = scanPartitions (env.table d) := by
    unfold getPartitions at h
    cases hc : List.lookup cid st.registry with
    | none => simp only [hc] at h; simp at h
    | some ctx =>
        simp only [hc, Prod.mk.injEq, Resp.partsOk.injEq] at h
        exact h.1.symm
  subst hparts
  have hlen := scanPartitions_length (env.table d)
  have hmap : (scanPartitions (env.table d)).map Partition.order =
      List.range (scanPartitions (env.table d)).length := by
    rw [hlen]
    exact scanPartitions_map_order (env.table d)
  refine ⟨hmap, ?_, ?_, hlen, ?_⟩
  · rw [hmap]
    exact List.nodup_range _
  · rw [hmap]
    exact List.pairwise_lt_range _
  · intro i raw hr
    exact scanPartitions_getElem (env.table d) i raw hr

/-- C6 (witness): the concrete two-partition table of `/dev/sda` comes
back with orders `[0, 1]` and entries matching the table. -/
theorem c6_witness :
    (getPartitions env0 stBusy 0 "/dev/sda" =
      (Resp.partsOk (scanPartitions (env0.table "/dev/sda")), stBusy)) ∧
    ((scanPartitions (env0.table "/dev/sda")).map Partition.order =
        List.range (scanPartitions (env0.table "/dev/sda")).length ∧
      ((scanPartitions (env0.table "/dev/sda")).map Partition.order).Nodup ∧
      List.Pairwise (· < ·)
        ((scanPartitions (env0.table "/dev/sda")).map Partition.order) ∧
      (scanPartitions (env0.table "/dev/sda")).length =
        (env0.table "/dev/sda").length ∧
      (∀ i raw, (env0.table "/dev/sda")[i]? = some raw →
        (scanPartitions (env0.table "/dev/sda"))[i]? = some
          ({ order := i, name := raw.name, filesystem := raw.filesystem
             offset := raw.offset, size := raw.size
             status := raw.status } : Partition))) :=
  ⟨by decide,
    c6_partitions_order env0 stBusy 0 "/dev/sda"
      (scanPartitions (env0.table "/dev/sda")) stBusy (by decide)⟩

/-- C7 (counterexample): GetDisks does depend on whether the context id
resolves: in the one-context state, a never-issued id is answered with
NotFound while the issued id is answered with the disk list. -/
theorem c7_counterexample :
    (getDisks env0 stBusy 5).1 = Resp.err ErrKind.NotFound "context not found" ∧
    (getDisks env0 stBusy 0).1 = Resp.disksOk env0.disks ∧
    (getDisks env0 stBusy 5).1 ≠ (getDisks env0 stBusy 0).1 := by
  refine ⟨by decide, by decide, by decide⟩

/-- C7 (amended): GetDisks validates the `context_id` against the Session
Registry and fails with NotFound when it does not resolve; the probe
itself is stateless: any two context ids that resolve (to whatever
contexts) receive identical responses. -/
theorem c7_disks_probe_stateless (env : Env) (st : ServerState)
    (cid1 cid2 : Nat) (ctx1 ctx2 : RecoveryContext)
    (h1 : List.lookup cid1 st.registry = some ctx1)
    (h2 : List.lookup cid2 st.registry = some ctx2) :
    getDisks env st cid1 = getDisks env st cid2 ∧
    (∀ c, List.lookup c st.registry = none →
      (getDisks env st c).1 = Resp.err ErrKind.NotFound "context not found") := by
  constructor
  · simp [getDisks, h1, h2]
  · intro c hc
    simp [getDisks, hc]

/-- C7 (witness): in the two-context state, the ids 0 and 1 resolve to
different contexts yet receive identical GetDisks responses. -/
theorem c7_witness :
    List.lookup 0 stTwo.registry = some ctxA ∧
    List.lookup 1 stTwo.registry = some ctxB ∧
    (getDisks env0 stTwo 0 = getDisks env0 stTwo 1 ∧
      (∀ c, List.lookup c stTwo.registry = none →
        (getDisks env0 stTwo c).1 =
          Resp.err ErrKind.NotFound "context not found")) :=
  ⟨by decide, by decide,
    c7_disks_probe_stateless env0 stTwo 0 1 ctxA ctxB (by decide) (by decide)⟩

/-- C8: a Recovery Context created by a successful Initialize keeps the
`device`, `recovery_dir`, `log_mode` and `log_file` values supplied to
that Initialize for as long as it is in the registry, whatever request
sequence follows. -/
theorem c8_context_fields_immutable (env : Env) (st : ServerState)
    (d rd : String) (lm : Nat) (lf : String) (cid : Nat) (ops : List Op)
    (ctx' : RecoveryContext) (hk : KeysBelow st)
    (hinit : (create env st d rd lm lf).1 = Resp.initOk cid)
    (hlook : List.lookup cid
      (execOps env ((create env st d rd lm lf).2) ops).registry = some ctx') :
    ctx'.device = d ∧ ctx'.recovery_dir = rd ∧ ctx'.log_mode = lm ∧
    ctx'.log_file = lf := by
  obtain ⟨hcid, hst⟩ := create_initOk env st d rd lm lf cid hinit
  have hk1 : KeysBelow ((create env st d rd lm lf).2) :=
    create_keysBelow env st d rd lm lf hk
  have hl0 : List.lookup cid ((create env st d rd lm lf).2).registry =
      some { device := d, recovery_dir := rd, log_mode := lm, log_file := lf
             state := CtxState.Active } := by
    rw [hst, hcid]
    rw [List.lookup_cons]
    simp
  have heq := execOps_lookup_pres env ops ((create env st d rd lm lf).2) cid
    _ ctx' hk1 hl0 hlook
  rw [heq]
  exact ⟨rfl, rfl, rfl, rfl⟩

/-- C8 (witness): the context created by a concrete Initialize still
carries the supplied field values after a GetDisks, a GetPartitions and an
unrelated failed Initialize. -/
theorem c8_witness :
    KeysBelow initState ∧
    (create env0 initState "/dev/sda" "/tmp/r1" 1 "").1 = Resp.initOk 0 ∧
    List.lookup 0
      (execOps env0 ((create env0 initState "/dev/sda" "/tmp/r1" 1 "").2)
        [Op.disks 0, Op.parts 0 "/dev/sda", Op.init "/dev/sda" "/tmp/r9" 2 "x"]).registry =
      some { device := "/dev/sda", recovery_dir := "/tmp/r1", log_mode := 1
             log_file := "", state := CtxState.Active } ∧
    ({ device := "/dev/sda", recovery_dir := "/tmp/r1", log_mode := 1
       log_file := "", state := CtxState.Active } : RecoveryContext).device = "/dev/sda" :=
  ⟨by intro p hp; simp [initState] at hp, by decide, by decide,
    (c8_context_fields_immutable env0 initState "/dev/sda" "/tmp/r1" 1 "" 0
      [Op.disks 0, Op.parts 0 "/dev/sda", Op.init "/dev/sda" "/tmp/r9" 2 "x"]
      { device := "/dev/sda", recovery_dir := "/tmp/r1", log_mode := 1
        log_file := "", state := CtxState.Active }
      (by intro p hp; simp [initState] at hp) (by decide) (by decide)).1⟩

/-- C9: two Shutdown calls from the same state that differ only in the
`reason` string produce the same resulting service state and the same
success/failure outcome: `reason` never affects control flow. -/
theorem c9_shutdown_reason_invariant (st : ServerState) (f : Bool)
    (r1 r2 : String) :
    (shutdown st f r1).2 = (shutdown st f r2).2 ∧
    ((shutdown st f r1).1).success = ((shutdown st f r2).1).success := by
  unfold shutdown
  cases f with
  | true => simp [Resp.success]
  | false =>
      by_cases h : st.registry.isEmpty <;> simp [h, Resp.success]

/-- C10: Initialize accepts an empty `log_file` (no session log) together
with a numeric `log_mode`: the example client's exact call succeeds, its
context id has a non-empty wire form, and the context is usable (a
follow-up GetPartitions on it succeeds). -/
theorem c10_empty_log_file_accepted :
    (create env0 initState "/dev/sda" "/tmp/photorec_test" 1 "").1 =
      Resp.initOk 0 ∧
    ((create env0 initState "/dev/sda" "/tmp/photorec_test" 1 "").1).success
      = true ∧
    contextIdWire 0 ≠ "" ∧
    ((getPartitions env0
        ((create env0 initState "/dev/sda" "/tmp/photorec_test" 1 "").2) 0
        "/dev/sda").1).success = true := by
  refine ⟨by decide, by decide, ?_, by decide⟩
  decide

end PhotoRecServer
